import Mathlib

/-!
Verification of the MeshJS/polkadot wallet core against its specification.

The development shallowly embeds the wallet code:
* `buildDerivation` from `packages/polkadot/src/wallets/embedded/index.ts`
  (the KeyDerivation component);
* `EmbeddedWallet` with `init`, `isInitialised`, `signTx`, `verifySignature`
  from `packages/mesh-polkadot-wallet/src/embedded/index.ts`;
* `BrowserWallet` with `getAvailableWallets` and `enable` from
  `packages/polkadot/src/wallets/browser/index.ts`, and with `loadContract`
  and `query` from the earlier browser wallet variant;
* a spec-modelled wallet-handle state machine for the `disconnect`
  lifecycle, whose implementation is exercised by the test suite but is
  not part of the sources at hand.

Asynchronous, fallible steps (RPC fetches, extension calls) are embedded as
`Except` values supplied through an explicit environment; JavaScript template
strings and truthiness are embedded explicitly.
-/

namespace MeshPolkadot

/-! ## KeyDerivation (`buildDerivation`) -/

/-- JavaScript truthiness of an optional string value: `undefined` and the
empty string are falsy, every other string is truthy. -/
def truthy : Option String → Bool
  | none => false
  | some s => !(s == "")

/-- Embeds `buildDerivation` from the embedded wallet module: starting from
the phrase, append `//<hard>` when the hard segment is truthy, then `/<soft>`
when the soft segment is truthy. -/
def buildDerivation (phrase : String) (hardDerivation softDerivation : Option String) : String :=
  let r := phrase
  let r := if truthy hardDerivation then r ++ "//" ++ hardDerivation.getD "" else r
  let r := if truthy softDerivation then r ++ "/" ++ softDerivation.getD "" else r
  r

/-- The derivation string as the (amended) spec words describe it: the phrase
with `//<hard>` appended first when the hard segment is present and
non-empty, then `/<soft>` appended when the soft segment is present and
non-empty. -/
def derivationSpec (phrase : String) (hardDerivation softDerivation : Option String) : String :=
  let afterHard :=
    match hardDerivation with
    | some h => if h = "" then phrase else phrase ++ "//" ++ h
    | none => phrase
  match softDerivation with
  | some s => if s = "" then afterHard else afterHard ++ "/" ++ s
  | none => afterHard

/-! ## Embedded wallet (`packages/mesh-polkadot-wallet/src/embedded/index.ts`)

Serialized extrinsics are embedded structurally: the hex string produced by
`toHex` and consumed by the `GenericExtrinsic` constructor is identified with
the decoded extrinsic record, whose version byte carries the signed flag that
`isSigned` reads. -/

/-- The runtime version anchor reported by the api object. -/
structure RuntimeVersion where
  specVersion : Nat
  transactionVersion : Nat
deriving DecidableEq, Repr

/-- An error carried by a rejected RPC promise. -/
structure RpcError where
  code : Nat
deriving DecidableEq, Repr

/-- The chain-state anchor set handed to `GenericExtrinsic.sign` inside
`signTx`: genesis hash, finalized block hash, account nonce, runtime
version. -/
structure Anchors where
  genesisHash : List Nat
  blockHash : List Nat
  nonce : Nat
  runtimeVersion : RuntimeVersion
deriving DecidableEq, Repr

/-- The signature material `GenericExtrinsic.sign` attaches: the signer
address and the anchor set bound into the payload. -/
structure ExtrinsicSignature where
  signer : String
  anchors : Anchors
deriving DecidableEq, Repr

/-- A (de)serialized extrinsic as `GenericExtrinsic` presents it: the version
byte's signed bit, the opaque call bytes, and the attached signature when
signed. -/
structure GenericExtrinsic where
  isSigned : Bool
  method : List Nat
  signature : Option ExtrinsicSignature
deriving DecidableEq, Repr

/-- A keyring pair as `signTx` consumes it (only the address is read before
the signing step, and the signing step itself is the keyring capability). -/
structure KeyringPair where
  address : String
deriving DecidableEq, Repr

/-- `extrinsic.sign(pair, anchors)`: attaches a signature binding the given
anchor set and flips the version byte to signed. -/
def GenericExtrinsic.sign (ex : GenericExtrinsic) (pair : KeyringPair)
    (anchors : Anchors) : GenericExtrinsic :=
  { ex with
    isSigned := true
    signature := some { signer := pair.address, anchors := anchors } }

/-- The api handle obtained from `ApiPromise.create`: the pre-fetched genesis
hash and runtime version, and the two fallible RPC fetches `signTx` awaits
(`rpc.system.accountNextIndex` applied to an address, and
`rpc.chain.getFinalizedHead`). -/
structure Api where
  genesisHash : List Nat
  runtimeVersion : RuntimeVersion
  accountNextIndex : String → Except RpcError Nat
  getFinalizedHead : Except RpcError (List Nat)

/-- Errors surfaced by the embedded wallet operations: the
"Polkadot API not initialised." guard, a rejected RPC fetch, and (for the
spec-modelled handle state machine) use after disconnect. -/
inductive WalletError
  | notInitialised
  | rpc (e : RpcError)
  | reconnectRequired
deriving DecidableEq, Repr

/-- The embedded wallet state: the optional api handle (`_api`, set by
`init`) and the keyring pair derived in the constructor. -/
structure EmbeddedWallet where
  api : Option Api
  keyringPair : KeyringPair

/-- `init`: awaits `ApiPromise.create` and stores the api handle; a rejected
creation rejects `init` and leaves the wallet unchanged. -/
def EmbeddedWallet.init (w : EmbeddedWallet) (createResult : Except WalletError Api) :
    Except WalletError EmbeddedWallet :=
  match createResult with
  | .error e => .error e
  | .ok api => .ok { w with api := some api }

/-- `isInitialized`: whether `_api` has been set. -/
def EmbeddedWallet.isInitialised (w : EmbeddedWallet) : Bool :=
  w.api.isSome

/-- The body of `signTx` after the initialisation guard: await the nonce
fetch, await the finalized-head fetch, then sign with the anchor set
assembled from the two fetched values plus the api's genesis hash and
runtime version. -/
def signTxCore (api : Api) (pair : KeyringPair) (extrinsic : GenericExtrinsic) :
    Except WalletError GenericExtrinsic :=
  match api.accountNextIndex pair.address with
  | .error e => .error (.rpc e)
  | .ok nonce =>
    match api.getFinalizedHead with
    | .error e => .error (.rpc e)
    | .ok blockHash =>
      .ok (extrinsic.sign pair
        { genesisHash := api.genesisHash
          blockHash := blockHash
          nonce := nonce
          runtimeVersion := api.runtimeVersion })

/-- `signTx`: throws the not-initialised error when `_api` is unset,
otherwise decodes the serialized transaction, fetches the anchors and signs. -/
def EmbeddedWallet.signTx (w : EmbeddedWallet) (serialisedTx : GenericExtrinsic) :
    Except WalletError GenericExtrinsic :=
  match w.api with
  | none => .error .notInitialised
  | some api => signTxCore api w.keyringPair serialisedTx

/-- `verifySignature`: throws the not-initialised error when `_api` is unset,
otherwise decodes the serialized transaction and returns its `isSigned`
flag. -/
def EmbeddedWallet.verifySignature (w : EmbeddedWallet) (serialisedTx : GenericExtrinsic) :
    Except WalletError Bool :=
  match w.api with
  | none => .error .notInitialised
  | some _ => .ok serialisedTx.isSigned

/-! ## Browser wallet (`packages/polkadot/src/wallets/browser/index.ts` and
the earlier browser wallet variant) -/

/-- A signer capability handle supplied by a browser extension. -/
structure Signer where
  id : Nat
deriving DecidableEq, Repr

/-- The api handle the browser wallet holds; `boundSigner` records the state
set by `api.setSigner`. -/
structure BApi where
  id : Nat
  boundSigner : Option Signer
deriving DecidableEq, Repr

/-- A contract handle: `new ContractPromise(api, abi, address)` parses no
chain state, it just binds the interface description and address to the
shared api handle. -/
structure ContractPromise where
  api : BApi
  abi : String
  address : String
deriving DecidableEq, Repr

/-- The `contracts` registry of the browser wallet, a JavaScript object keyed
by the caller-chosen name. -/
def ContractRegistry : Type := String → Option ContractPromise

/-- `loadContract(name, abi, address)`: construct the contract handle and
assign it at `name` in the registry (plain object assignment, so an existing
binding at `name` is overwritten). -/
def loadContract (contracts : ContractRegistry) (api : BApi)
    (name abi address : String) : ContractRegistry :=
  fun n =>
    if n = name then some { api := api, abi := abi, address := address }
    else contracts n

/-- A decoded dispatch error from a failed contract dry run. -/
structure DispatchError where
  code : Nat
deriving DecidableEq, Repr

/-- A decoded contract return value (a `Codec`); dry-run outcomes carry it as
`output`, which is null exactly when the embedding's `Option` is `none`. -/
structure Codec where
  value : Nat
deriving DecidableEq, Repr

/-- The `result` field of a `ContractCallOutcome`: the chain's Ok/Err tagged
execution result. -/
inductive ContractResult
  | ok (exec : Nat)
  | err (error : DispatchError)
deriving DecidableEq, Repr

/-- `result.isOk`. -/
def ContractResult.isOk : ContractResult → Bool
  | .ok _ => true
  | .err _ => false

/-- A value thrown by `query`: `result.asErr` decodes the error payload on
the Err branch, and asserts (throwing a conversion failure, not a decoded
on-chain error) when forced on the Ok branch. -/
inductive Thrown
  | decodedErr (e : DispatchError)
  | assertionFailure
deriving DecidableEq, Repr

/-- `result.asErr` as `query` invokes it. -/
def ContractResult.asErr : ContractResult → Thrown
  | .ok _ => .assertionFailure
  | .err e => .decodedErr e

/-- An awaited dry-run outcome: the tagged execution result and the decoded
output, which may be absent. -/
structure ContractCallOutcome where
  result : ContractResult
  output : Option Codec
deriving DecidableEq, Repr

/-- `query`: destructure the awaited outcome; when `result.isOk && output`
(JavaScript truthiness: a null output fails the test) return the output,
otherwise throw `result.asErr`. -/
def query (outcome : ContractCallOutcome) : Except Thrown Codec :=
  match outcome.output, outcome.result.isOk with
  | some o, true => .ok o
  | some _, false => .error outcome.result.asErr
  | none, _ => .error outcome.result.asErr

/-- A provider descriptor returned by discovery (`web3Enable`): the injected
extension's name and version. -/
structure Wallet where
  name : String
  version : String
deriving DecidableEq, Repr

/-- A value thrown by the delegated-wallet code paths: an `Error` object
carrying a message, or a plain string. -/
inductive JsValue
  | errObj (message : String)
  | str (s : String)
deriving DecidableEq, Repr

/-- `JSON.stringify` on thrown values: `Error` instances expose no enumerable
own properties, so they serialize to "\x7b\x7d"; a string serializes to its
quoted form. -/
def jsonStringify : JsValue → String
  | .errObj _ => "\x7b\x7d"
  | .str s => "\"" ++ s ++ "\""

/-- `getAvailableWallets(originName)`: await discovery, throw the
"No extension installed" error when it yields zero providers, otherwise
return the provider list unchanged. The `extensions` argument is the list the
awaited `web3Enable(originName)` call resolved to. -/
def getAvailableWallets (extensions : List Wallet) : Except JsValue (List Wallet) :=
  if extensions.isEmpty then .error (.errObj "No extension installed")
  else .ok extensions

/-- An injected account as `web3Accounts` reports it. -/
structure Account where
  address : String
deriving DecidableEq, Repr

/-- The injector resolved by `web3FromAddress`, exposing the signer. -/
structure Injector where
  signer : Signer
deriving DecidableEq, Repr

/-- The environment of awaited external calls inside `enable`: the account
list resolved by `web3Accounts({extensions: [walletName]})`, the api handle
resolved by `initPolkadotApi`, and the injector resolved by
`web3FromAddress` for a given address. Each may reject with a thrown value. -/
structure EnableEnv where
  web3Accounts : Except JsValue (List Account)
  initPolkadotApi : Except JsValue BApi
  web3FromAddress : String → Except JsValue Injector

/-- The wallet handle `enable` returns: the private constructor passes api
and account to the base-class constructor and stores the signer as a field;
no `setSigner` call occurs on this path. -/
structure BrowserWallet where
  api : BApi
  account : Account
  signer : Signer
deriving DecidableEq, Repr

/-- The `try` body of `enable`: await the account list, throw the
"No accounts found" error when it is empty, select `accounts[0]`, open the
chain connection, resolve the injector for the selected address, and
construct the wallet handle. -/
def enableBody (env : EnableEnv) : Except JsValue BrowserWallet :=
  match env.web3Accounts with
  | .error e => .error e
  | .ok accounts =>
    match accounts with
    | [] => .error (.errObj "No accounts found")
    | account :: _ =>
      match env.initPolkadotApi with
      | .error e => .error e
      | .ok api =>
        match env.web3FromAddress account.address with
        | .error e => .error e
        | .ok injector =>
          .ok { api := api, account := account, signer := injector.signer }

/-- The message of the wrapped error `enable` throws from its `catch` block,
embedding `JSON.stringify` of the caught value. -/
def enableWrapMessage (e : JsValue) : String :=
  "[BrowserWallet] An error occurred during enable: " ++ jsonStringify e ++ "."

/-- `enable(walletName, options)`: run the body; any thrown value is caught
and rethrown as a single new `Error` whose message embeds the JSON
serialization of the cause. -/
def enable (env : EnableEnv) : Except JsValue BrowserWallet :=
  match enableBody env with
  | .ok w => .ok w
  | .error e => .error (.errObj (enableWrapMessage e))

/-! ## Wallet-handle lifecycle (spec-modelled)

The repository's test suite tears an embedded wallet down with
`await walletMnemonic.disconnect()`, but the `disconnect` implementation
itself is not among the sources at hand; the handle lifecycle is therefore
modelled from the spec. -/

/-- Modelled from the spec: the handle state machine
`Uninitialized → Initializing → Ready → Disconnected` of §4.4 (the transient
`Initializing` state is the suspension inside `init` and is not observable
between operations). -/
inductive HandleState
  | uninitialised
  | ready
  | disconnected
deriving DecidableEq, Repr

/-- Modelled from the spec: a wallet handle owning one optional chain
connection and the signing identity, tagged with its lifecycle state. -/
structure WalletHandle where
  state : HandleState
  api : Option Api
  keyringPair : KeyringPair

/-- Modelled from the spec: `init` establishes the connection, moving
`Uninitialized` to `Ready`; used outside its state-machine window it fails
with the reconnect-required state error (`Disconnected` is terminal, so no
operation may re-establish a connection on the same handle). -/
def WalletHandle.init (h : WalletHandle) (createResult : Except WalletError Api) :
    Except WalletError WalletHandle :=
  match h.state with
  | .uninitialised =>
    match createResult with
    | .error e => .error e
    | .ok api => .ok { h with state := .ready, api := some api }
  | .ready => .error .reconnectRequired
  | .disconnected => .error .reconnectRequired

/-- Modelled from the spec: `disconnect` tears down the connection the
handle owns and moves the handle to the terminal `Disconnected` state. -/
def WalletHandle.disconnect (h : WalletHandle) : WalletHandle :=
  { h with state := .disconnected, api := none }

/-- Modelled from the spec: `signTx` on the handle requires the `Ready`
state and an established connection, then performs the source `signTx`
body; outside that window it fails fast with the not-initialised error. -/
def WalletHandle.signTx (h : WalletHandle) (serialisedTx : GenericExtrinsic) :
    Except WalletError GenericExtrinsic :=
  match h.state, h.api with
  | .ready, some api => signTxCore api h.keyringPair serialisedTx
  | _, _ => .error .notInitialised

/-- Modelled from the spec: `verifySignature` on the handle requires the
`Ready` state and an established connection, then performs the source
`verifySignature` body. -/
def WalletHandle.verifySignature (h : WalletHandle) (serialisedTx : GenericExtrinsic) :
    Except WalletError Bool :=
  match h.state, h.api with
  | .ready, some _ => .ok serialisedTx.isSigned
  | _, _ => .error .notInitialised

/-! ## Concrete sample values used by witnesses -/

/-- A connection whose anchor fetches succeed: nonce 5, finalized head `[9]`,
genesis hash `[7]`, runtime version `(10, 2)`. -/
def apiW : Api where
  genesisHash := [7]
  runtimeVersion := ⟨10, 2⟩
  accountNextIndex := fun _ => .ok 5
  getFinalizedHead := .ok [9]

/-- A connection whose nonce fetch rejects. -/
def apiNonceFail : Api where
  genesisHash := [7]
  runtimeVersion := ⟨10, 2⟩
  accountNextIndex := fun _ => .error ⟨3⟩
  getFinalizedHead := .ok [9]

/-- A sample keyring pair. -/
def pairW : KeyringPair := ⟨"5Grwv"⟩

/-- A sample unsigned serialized transaction. -/
def txW : GenericExtrinsic := ⟨false, [4, 2], none⟩

/-! ## Claims -/

/-- Claim C1: an initialized embedded wallet's `signTx` hands the signing
step exactly the fetched anchor set — the account's next nonce, the api's
genesis hash, the finalized block hash, and the runtime version, unaltered —
and when an anchor fetch rejects, no signed payload is produced at all. -/
theorem c1_signTx_anchor_binding (api : Api) (pair : KeyringPair) (tx : GenericExtrinsic) :
    (∀ n b, api.accountNextIndex pair.address = .ok n →
      api.getFinalizedHead = .ok b →
      EmbeddedWallet.signTx ⟨some api, pair⟩ tx =
        .ok (tx.sign pair
          { genesisHash := api.genesisHash
            blockHash := b
            nonce := n
            runtimeVersion := api.runtimeVersion })) ∧
    ((∃ e, api.accountNextIndex pair.address = .error e) ∨
      (∃ e, api.getFinalizedHead = .error e) →
      ∀ s, EmbeddedWallet.signTx ⟨some api, pair⟩ tx ≠ .ok s) := by
  constructor
  · intro n b hn hb
    simp [EmbeddedWallet.signTx, signTxCore, hn, hb]
  · intro hfail s
    rcases hfail with ⟨e, he⟩ | ⟨e, he⟩
    · simp [EmbeddedWallet.signTx, signTxCore, he]
    · cases hn : api.accountNextIndex pair.address <;>
        simp [EmbeddedWallet.signTx, signTxCore, hn, he]

/-- Witness for C1 at concrete inputs: with all fetches succeeding the signed
payload binds exactly `(nonce 5, genesis [7], head [9], version (10,2))`, and
with a rejecting nonce fetch no signed payload is produced. -/
theorem c1_signTx_anchor_binding_witness :
    EmbeddedWallet.signTx ⟨some apiW, pairW⟩ txW =
      .ok (txW.sign pairW
        { genesisHash := [7], blockHash := [9], nonce := 5,
          runtimeVersion := ⟨10, 2⟩ }) ∧
    ∀ s, EmbeddedWallet.signTx ⟨some apiNonceFail, pairW⟩ txW ≠ .ok s :=
  ⟨(c1_signTx_anchor_binding apiW pairW txW).1 5 [9] rfl rfl,
   (c1_signTx_anchor_binding apiNonceFail pairW txW).2 (Or.inl ⟨⟨3⟩, rfl⟩)⟩

/-- Claim C2: signing a valid unsigned payload on an initialized wallet and
then verifying the signed result returns true, while verifying the unsigned
payload itself returns false — verification reads only the structural signed
flag. -/
theorem c2_sign_then_verify (api : Api) (pair : KeyringPair) (tx : GenericExtrinsic)
    (n : Nat) (b : List Nat)
    (hunsigned : tx.isSigned = false)
    (hn : api.accountNextIndex pair.address = .ok n)
    (hb : api.getFinalizedHead = .ok b) :
    ∃ signedTx,
      EmbeddedWallet.signTx ⟨some api, pair⟩ tx = .ok signedTx ∧
      EmbeddedWallet.verifySignature ⟨some api, pair⟩ signedTx = .ok true ∧
      EmbeddedWallet.verifySignature ⟨some api, pair⟩ tx = .ok false := by
  refine ⟨tx.sign pair
    { genesisHash := api.genesisHash, blockHash := b, nonce := n,
      runtimeVersion := api.runtimeVersion }, ?_, ?_, ?_⟩
  · simp [EmbeddedWallet.signTx, signTxCore, hn, hb]
  · simp [EmbeddedWallet.verifySignature, GenericExtrinsic.sign]
  · simp [EmbeddedWallet.verifySignature, hunsigned]

/-- Witness for C2 at concrete inputs. -/
theorem c2_sign_then_verify_witness :
    ∃ signedTx,
      EmbeddedWallet.signTx ⟨some apiW, pairW⟩ txW = .ok signedTx ∧
      EmbeddedWallet.verifySignature ⟨some apiW, pairW⟩ signedTx = .ok true ∧
      EmbeddedWallet.verifySignature ⟨some apiW, pairW⟩ txW = .ok false :=
  c2_sign_then_verify apiW pairW txW 5 [9] rfl rfl rfl

/-- Claim C3, counterexample: with the hard segment present but equal to the
empty string, `buildDerivation` leaves the phrase unchanged (JavaScript
truthiness treats the empty string as absent), whereas the claim as stated
demands `//` be appended for every present segment. -/
theorem c3_empty_segment_counterexample :
    buildDerivation "p" (some "") none = "p" ∧
    ("p" : String) ≠ "p" ++ "//" ++ "" := by
  exact ⟨rfl, by decide⟩

/-- Claim C3 (amended): the derivation string equals the phrase with
`//<hard>` appended first only when the hard segment is present and
non-empty, and `/<soft>` appended second only when the soft segment is
present and non-empty — an empty segment is treated as absent — with no
other transformation; with both segments absent the result is the phrase
unchanged. -/
theorem c3_buildDerivation_shape (p : String) (h s : Option String) :
    buildDerivation p h s = derivationSpec p h s ∧
    buildDerivation p none none = p := by
  refine ⟨?_, rfl⟩
  cases h with
  | none =>
    cases s with
    | none => rfl
    | some sd =>
      by_cases hs : sd = "" <;>
        simp [buildDerivation, derivationSpec, truthy, hs]
  | some hd =>
    cases s with
    | none =>
      by_cases hh : hd = "" <;>
        simp [buildDerivation, derivationSpec, truthy, hh]
    | some sd =>
      by_cases hh : hd = "" <;> by_cases hs : sd = "" <;>
        simp [buildDerivation, derivationSpec, truthy, hh, hs]

/-- Claim C4: before initialization completes, the embedded wallet's
connection-requiring operations (`signTx`, `verifySignature`) reject with
the not-initialised error rather than silently no-opping; once `init`
completes successfully, both proceed past that gate. -/
theorem c4_not_initialised_gate (pair : KeyringPair) (tx : GenericExtrinsic)
    (api : Api) (w' : EmbeddedWallet)
    (hinit : EmbeddedWallet.init ⟨none, pair⟩ (.ok api) = .ok w') :
    EmbeddedWallet.signTx ⟨none, pair⟩ tx = .error .notInitialised ∧
    EmbeddedWallet.verifySignature ⟨none, pair⟩ tx = .error .notInitialised ∧
    w'.signTx tx ≠ .error .notInitialised ∧
    w'.verifySignature tx = .ok tx.isSigned := by
  have hw' : w' = ⟨some api, pair⟩ := by
    simpa [EmbeddedWallet.init] using hinit.symm
  subst hw'
  refine ⟨rfl, rfl, ?_, rfl⟩
  cases hn : api.accountNextIndex pair.address with
  | error e => simp [EmbeddedWallet.signTx, signTxCore, hn]
  | ok n =>
    cases hb : api.getFinalizedHead with
    | error e => simp [EmbeddedWallet.signTx, signTxCore, hn, hb]
    | ok b => simp [EmbeddedWallet.signTx, signTxCore, hn, hb]

/-- Witness for C4 at concrete inputs. -/
theorem c4_not_initialised_gate_witness :
    EmbeddedWallet.signTx ⟨none, pairW⟩ txW = .error .notInitialised ∧
    EmbeddedWallet.verifySignature ⟨none, pairW⟩ txW = .error .notInitialised ∧
    EmbeddedWallet.signTx ⟨some apiW, pairW⟩ txW ≠ .error .notInitialised ∧
    EmbeddedWallet.verifySignature ⟨some apiW, pairW⟩ txW = .ok txW.isSigned :=
  c4_not_initialised_gate pairW txW apiW ⟨some apiW, pairW⟩ rfl

/-- Claim C9: the wallet handle exposes an explicit `disconnect` tearing down
the connection it owns; afterwards the handle is in the terminal
`Disconnected` state, in which no connection-requiring operation succeeds
and no operation re-establishes a connection on the same handle. -/
theorem c9_disconnect_terminal (h : WalletHandle) (tx : GenericExtrinsic)
    (r : Except WalletError Api) :
    h.disconnect.state = .disconnected ∧
    h.disconnect.api = none ∧
    h.disconnect.signTx tx = .error .notInitialised ∧
    h.disconnect.verifySignature tx = .error .notInitialised ∧
    h.disconnect.init r = .error .reconnectRequired ∧
    h.disconnect.disconnect.state = .disconnected :=
  ⟨rfl, rfl, rfl, rfl, rfl, rfl⟩

/-- Claim C5, counterexample: an awaited outcome whose result is the Ok
branch but whose decoded output is absent does not make `query` return — it
takes the error path (throwing the branch-conversion assertion, not a
decoded on-chain error), so `query` does not return a value exactly when the
outcome is the Ok branch. -/
theorem c5_ok_without_output_counterexample :
    (ContractResult.ok 0).isOk = true ∧
    query ⟨.ok 0, none⟩ = .error .assertionFailure := by
  exact ⟨rfl, rfl⟩

/-- Claim C5 (amended): `query` returns the decoded value exactly when the
awaited outcome is the Ok branch and a decoded output is present; on the Err
branch it throws the decoded on-chain error instead of returning it as a
normal value, so a contract-level failure is distinguishable from a
transport failure. -/
theorem c5_query_unwraps (o : ContractCallOutcome) :
    (∀ v, o.output = some v → o.result.isOk = true → query o = .ok v) ∧
    (∀ e, o.result = .err e → query o = .error (.decodedErr e)) ∧
    (∀ v, query o = .ok v → o.output = some v ∧ o.result.isOk = true) := by
  refine ⟨?_, ?_, ?_⟩
  · intro v hv hok
    simp [query, hv, hok]
  · intro e he
    cases ho : o.output <;>
      simp [query, ho, he, ContractResult.isOk, ContractResult.asErr]
  · intro v hv
    cases ho : o.output with
    | none => simp [query, ho] at hv
    | some w =>
      cases hok : o.result.isOk <;> simp [query, ho, hok] at hv
      exact ⟨congrArg some hv, rfl⟩

/-- Witness for C5 at concrete inputs: an Ok outcome with output `2` is
returned, an Err outcome with error code `7` is thrown decoded. -/
theorem c5_query_unwraps_witness :
    query ⟨.ok 1, some ⟨2⟩⟩ = .ok ⟨2⟩ ∧
    query ⟨.err ⟨7⟩, none⟩ = .error (.decodedErr ⟨7⟩) :=
  ⟨(c5_query_unwraps ⟨.ok 1, some ⟨2⟩⟩).1 ⟨2⟩ rfl rfl,
   (c5_query_unwraps ⟨.err ⟨7⟩, none⟩).2.1 ⟨7⟩ rfl⟩

/-- Claim C10: when the awaited outcome is the Ok branch but the decoded
output is absent, `query` takes the error path rather than returning an
empty output; hence `query` returning normally guarantees a decoded output
value is present. -/
theorem c10_query_requires_output (o : ContractCallOutcome) :
    (o.result.isOk = true → o.output = none →
      query o = .error o.result.asErr) ∧
    (∀ v, query o = .ok v → o.output = some v) := by
  refine ⟨?_, ?_⟩
  · intro hok hnone
    simp [query, hnone]
  · intro v hv
    cases ho : o.output with
    | none => simp [query, ho] at hv
    | some w =>
      cases hok : o.result.isOk <;> simp [query, ho, hok] at hv
      exact congrArg some hv

/-- Witness for C10 at a concrete input: an Ok outcome with absent output
takes the error path. -/
theorem c10_query_requires_output_witness :
    query ⟨.ok 3, none⟩ = .error (ContractResult.ok 3).asErr :=
  (c10_query_requires_output ⟨.ok 3, none⟩).1 rfl rfl

/-- Claim C7: provider discovery rejects with the no-provider error exactly
when the discovery call yields zero providers, and otherwise returns the
ordered provider list, names and versions unchanged. -/
theorem c7_discover_providers (extensions : List Wallet) :
    (getAvailableWallets extensions = .error (.errObj "No extension installed") ↔
      extensions = []) ∧
    (extensions ≠ [] → getAvailableWallets extensions = .ok extensions) := by
  constructor
  · constructor
    · intro herr
      cases extensions with
      | nil => rfl
      | cons a rest => simp [getAvailableWallets] at herr
    · intro he
      subst he
      rfl
  · intro hne
    cases extensions with
    | nil => exact absurd rfl hne
    | cons a rest => simp [getAvailableWallets]

/-- Witness for C7 at concrete inputs: the empty discovery result rejects,
a one-provider result is returned unchanged. -/
theorem c7_discover_providers_witness :
    getAvailableWallets [] = .error (.errObj "No extension installed") ∧
    getAvailableWallets [⟨"talisman", "1.0"⟩] = .ok [⟨"talisman", "1.0"⟩] :=
  ⟨(c7_discover_providers []).1.mpr rfl,
   (c7_discover_providers [⟨"talisman", "1.0"⟩]).2 (by simp)⟩

/-- Claim C8: loading a contract under an already-registered name follows
the rebind policy — the second call succeeds and the name maps to the second
contract handle — and every other registered name keeps its previous
binding; the policy is the same for all names and registries. -/
theorem c8_loadContract_rebind (contracts : ContractRegistry) (api : BApi)
    (name abi1 addr1 abi2 addr2 : String) :
    (loadContract (loadContract contracts api name abi1 addr1) api name abi2 addr2) name =
      some { api := api, abi := abi2, address := addr2 } ∧
    (∀ n, n ≠ name →
      (loadContract (loadContract contracts api name abi1 addr1) api name abi2 addr2) n =
        contracts n) := by
  constructor
  · simp [loadContract]
  · intro n hn
    simp [loadContract, hn]

/-- Witness for C8 at concrete inputs: rebinding name `x` leaves name `y`
bound as before. -/
theorem c8_loadContract_rebind_witness :
    (loadContract (loadContract (fun _ => none) ⟨1, none⟩ "x" "i1" "a1") ⟨1, none⟩ "x" "i2" "a2") "x" =
      some { api := ⟨1, none⟩, abi := "i2", address := "a2" } ∧
    (loadContract (loadContract (fun _ => none) ⟨1, none⟩ "x" "i1" "a1") ⟨1, none⟩ "x" "i2" "a2") "y" =
      none :=
  ⟨(c8_loadContract_rebind (fun _ => none) ⟨1, none⟩ "x" "i1" "a1" "i2" "a2").1,
   (c8_loadContract_rebind (fun _ => none) ⟨1, none⟩ "x" "i1" "a1" "i2" "a2").2 "y" (by decide)⟩

/-- An enable environment whose account list resolves empty. -/
def envEmptyAccounts : EnableEnv where
  web3Accounts := .ok []
  initPolkadotApi := .ok ⟨1, none⟩
  web3FromAddress := fun _ => .ok ⟨⟨4⟩⟩

/-- An enable environment whose account fetch rejects with an Error whose
message is "A". -/
def envAccountsFailA : EnableEnv where
  web3Accounts := .error (.errObj "A")
  initPolkadotApi := .ok ⟨1, none⟩
  web3FromAddress := fun _ => .ok ⟨⟨4⟩⟩

/-- An enable environment whose account fetch rejects with an Error whose
message is "B". -/
def envAccountsFailB : EnableEnv where
  web3Accounts := .error (.errObj "B")
  initPolkadotApi := .ok ⟨1, none⟩
  web3FromAddress := fun _ => .ok ⟨⟨4⟩⟩

/-- Claim C6, counterexample: with an empty account list, `enable` does not
fail with the bare no-accounts error — it fails with the wrapped error, and
because `JSON.stringify` of an `Error` is "\x7b\x7d", the wrapped message is
the same for distinct underlying causes, so the wrap does not carry the
underlying cause. -/
theorem c6_enable_wrap_counterexample :
    enable envEmptyAccounts =
      .error (.errObj (enableWrapMessage (.errObj "No accounts found"))) ∧
    enableWrapMessage (.errObj "No accounts found") ≠ "No accounts found" ∧
    enable envAccountsFailA = enable envAccountsFailB ∧
    (JsValue.errObj "A") ≠ (JsValue.errObj "B") := by
  refine ⟨rfl, by decide, rfl, by decide⟩

/-- Claim C6 (amended): with an empty account list `enable` throws the
no-accounts error internally but, like every other step failure, surfaces a
single wrapped error whose message embeds the JSON serialization of the
cause — "\x7b\x7d" for Error causes, so the cause's message is not preserved;
when every step succeeds and the list is non-empty, `enable` selects the
first account, opens the chain connection, resolves that account's signer,
and returns a wallet handle that stores the signer and the connection
unchanged (no signer is bound into the connection on this path). -/
theorem c6_enable_behaviour (env : EnableEnv) :
    (env.web3Accounts = .ok [] →
      enable env =
        .error (.errObj (enableWrapMessage (.errObj "No accounts found")))) ∧
    (∀ a rest api inj,
      env.web3Accounts = .ok (a :: rest) →
      env.initPolkadotApi = .ok api →
      env.web3FromAddress a.address = .ok inj →
      enable env = .ok { api := api, account := a, signer := inj.signer }) ∧
    (∀ e, env.web3Accounts = .error e →
      enable env = .error (.errObj (enableWrapMessage e))) ∧
    (∀ a rest e,
      env.web3Accounts = .ok (a :: rest) →
      env.initPolkadotApi = .error e →
      enable env = .error (.errObj (enableWrapMessage e))) ∧
    (∀ a rest api e,
      env.web3Accounts = .ok (a :: rest) →
      env.initPolkadotApi = .ok api →
      env.web3FromAddress a.address = .error e →
      enable env = .error (.errObj (enableWrapMessage e))) := by
  refine ⟨?_, ?_, ?_, ?_, ?_⟩
  · intro hacc
    simp [enable, enableBody, hacc]
  · intro a rest api inj hacc hapi hinj
    simp [enable, enableBody, hacc, hapi, hinj]
  · intro e hacc
    simp [enable, enableBody, hacc]
  · intro a rest e hacc hapi
    simp [enable, enableBody, hacc, hapi]
  · intro a rest api e hacc hapi hinj
    simp [enable, enableBody, hacc, hapi, hinj]

/-- An enable environment where every step succeeds with one account. -/
def envOneAccount : EnableEnv where
  web3Accounts := .ok [⟨"addr1"⟩]
  initPolkadotApi := .ok ⟨1, none⟩
  web3FromAddress := fun _ => .ok ⟨⟨4⟩⟩

/-- Witness for C6 at concrete inputs: the empty-list environment yields the
wrapped failure, the one-account environment yields the handle holding that
account, the opened connection unchanged, and the resolved signer. -/
theorem c6_enable_behaviour_witness :
    enable envEmptyAccounts =
      .error (.errObj (enableWrapMessage (.errObj "No accounts found"))) ∧
    enable envOneAccount =
      .ok { api := ⟨1, none⟩, account := ⟨"addr1"⟩, signer := ⟨4⟩ } :=
  ⟨(c6_enable_behaviour envEmptyAccounts).1 rfl,
   (c6_enable_behaviour envOneAccount).2.1 ⟨"addr1"⟩ [] ⟨1, none⟩ ⟨⟨4⟩⟩ rfl rfl rfl⟩

end MeshPolkadot
